import Mathlib

/-!
Verification of the KU-Fleet telemetry ingestion and trip-lifecycle pipeline.

This file gives a shallow embedding, in Lean 4, of the parts of the
KU-Fleet backend that the specification's testable properties talk about:
the coordinate buffer (`src/services/gpsBuffer.ts`), the trip state
machine and alert deduplication inside `handleParsedMessage`
(`src/services/gpsHandler.ts`, of which the repository carries several
divergent versions), the end-of-trip worker (`src/workers/workers.ts`),
and the TCP data handler (`src/tcp/tcpServer.ts` and its extended
variant).  Machine floats of the source are embedded as rationals,
timestamps as integers (milliseconds or seconds, per use), and the
durable document store as an explicit list of trip records.  External
calls that can fail are embedded with `Except` or with explicit outcome
parameters, so that the try/catch topology of the source is preserved.
-/

namespace KUFleet

/-! ### Configuration defaults (gpsHandler.ts, gpsBuffer.ts) -/

def STATION_PROXIMITY_METERS : ℚ := 60
def MIN_SPEED_KMH : ℚ := 5
def ALERT_DEDUPE_SECONDS : Int := 120
def SPEED_LIMIT_KMH : ℚ := 80
def MIN_DISTANCE_METERS : ℚ := 10
def MAX_BUFFER_SIZE : Nat := 50

/-! ### Data model

`TripCoordinate` embeds the `{lat, lng, speed, timestamp}` objects that
`handleParsedMessage` builds and `gpsBuffer.ts` batches.  The `speed`
field is optional because the end-trip worker (`workers.ts`) pushes a
final coordinate `{lat, lng, timestamp}` without a speed.
`TripRec` embeds one `TripLog` document with the fields the core
touches; a trip is active exactly while `endTime` is `null`. -/

structure TripCoordinate where
  lat : ℚ
  lng : ℚ
  speed : Option ℚ
  timestamp : Int
  deriving Repr, DecidableEq

structure TripRec where
  bus : Nat
  route : Option Nat := none
  startTime : Int := 0
  endTime : Option Int
  coordinates : List TripCoordinate
  status : String
  passengerCount : Int := 0
  distance : ℚ := 0
  avgSpeed : ℚ := 0
  lastUpdate : Int := 0
  currentSpeed : ℚ := 0
  deriving Repr, DecidableEq

/-- The mongo filter `{ bus: busId, endTime: null }` used throughout the
source to select the active trip of a vehicle. -/
def isActiveFor (busId : Nat) (t : TripRec) : Bool :=
  t.bus == busId && t.endTime == none

/-- `TripLog.findOne({ bus: busId, endTime: null })`: mongo's `findOne`
returns the first matching document. -/
def findActiveTrip (store : List TripRec) (busId : Nat) : Option TripRec :=
  store.find? (isActiveFor busId)

/-- Number of active trips a vehicle has in the durable store. -/
def activeCount (store : List TripRec) (busId : Nat) : Nat :=
  store.countP (fun t => isActiveFor busId t)

/-! ### Coordinate buffer (src/services/gpsBuffer.ts, lines 101-247)

`flushBusCoordinates` reads the vehicle's buffer, clears it at once
("Clear buffer immediately to prevent concurrent flushes"), and then
awaits a single batched `TripLog.updateOne` on the active trip.  While
that write is in flight, newly accepted points are pushed onto the fresh
(cleared) buffer; the parameter `arrived` below holds those points in
arrival order.  On write failure the source runs
`coordinateBuffer.set(busId, [...existing, ...buffer])`, i.e. it puts
the failed batch BEHIND the points that arrived during the flush. -/

/-- `TripLog.updateOne({bus, endTime: null}, { $push: { coordinates:
{ $each: pts } }, $set: { lastUpdate, currentSpeed } })`: mongo's
`updateOne` updates the first matching document only, and matches
nothing without error when no document qualifies. -/
def updateOneActivePush (store : List TripRec) (busId : Nat)
    (pts : List TripCoordinate) (lastUpd : Int) (curSpeed : ℚ) : List TripRec :=
  match store with
  | [] => []
  | t :: rest =>
    if isActiveFor busId t then
      { t with coordinates := t.coordinates ++ pts,
               lastUpdate := lastUpd, currentSpeed := curSpeed } :: rest
    else
      t :: updateOneActivePush rest busId pts lastUpd curSpeed

structure FlushOutcome where
  buffer : List TripCoordinate
  store : List TripRec
  deriving Repr, DecidableEq

/-- One call of `flushBusCoordinates(busId)`.  `buffer` is the vehicle's
buffer when the call starts, `arrived` the points accepted while the
durable write is awaited, `writeFails` whether `TripLog.updateOne`
throws.  An empty buffer returns before touching anything, so the
arrivals simply stay buffered.  On success the batch is written and the
buffer keeps only the arrivals; on failure the source re-merges the
batch AFTER the arrivals (`[...existing, ...buffer]`). -/
def flushBusCoordinates (busId : Nat) (buffer arrived : List TripCoordinate)
    (store : List TripRec) (writeFails : Bool) : FlushOutcome :=
  match buffer with
  | [] => { buffer := arrived, store := store }
  | b0 :: bs =>
    match writeFails with
    | true => { buffer := arrived ++ (b0 :: bs), store := store }
    | false =>
      let latest := (b0 :: bs).getLast (by simp)
      { buffer := arrived,
        store := updateOneActivePush store busId (b0 :: bs)
          latest.timestamp (latest.speed.getD 0) }

/-- The two-tick execution with a failing first flush: the batch fails
to write while `arrived` lands in the buffer, and the next flush (with
no further arrivals) succeeds. -/
def failThenRetry (busId : Nat) (batch arrived : List TripCoordinate)
    (store : List TripRec) : FlushOutcome :=
  let f1 := flushBusCoordinates busId batch arrived store true
  flushBusCoordinates busId f1.buffer [] f1.store false

/-- The failure-free two-tick execution over the same input: the batch
is written while `arrived` lands in the buffer, and the next flush
writes the arrivals. -/
def flushTwiceOk (busId : Nat) (batch arrived : List TripCoordinate)
    (store : List TripRec) : FlushOutcome :=
  let o1 := flushBusCoordinates busId batch arrived store false
  flushBusCoordinates busId o1.buffer [] o1.store false

/-- Coordinates currently recorded on the vehicle's active trip. -/
def activeCoords (store : List TripRec) (busId : Nat) : List TripCoordinate :=
  match findActiveTrip store busId with
  | some t => t.coordinates
  | none => []

/-! ### Alert deduplication locks (gpsHandler.ts variants)

The lock state for one dedup key is `none` (no key) or `some e` (key
present, expiring at absolute time `e`); a key with expiry `e` is gone
once `now ≥ e`, matching redis TTL semantics.  Each step takes the
current state and the attempt time and returns whether the lock was
acquired together with the new state.  Redis serialises commands, so a
set of racing callers is embedded as a sequence of attempts. -/

/-- The part_003 variant: `redisClient.set(key, "1", "EX", ttl, "NX")`,
a single conditional-set-with-expiry.  It sets (and starts a fresh TTL)
only when the key is absent or expired; a failing attempt leaves the
expiry untouched. -/
def redisSetNxEx (st : Option Int) (now ttl : Int) : Bool × Option Int :=
  match st with
  | none => (true, some (now + ttl))
  | some e => if e ≤ now then (true, some (now + ttl)) else (false, some e)

/-- The part_005 variant, `acquireLock`:
`redisClient.multi().setnx(key, "1").expire(key, ttl).exec()`, reading
the `setnx` reply.  The transaction is atomic, but the `expire` runs
whether or not `setnx` succeeded, so every attempt — including a failing
one — resets the key's TTL to a full `ttl` from the attempt time. -/
def acquireLock (st : Option Int) (now ttl : Int) : Bool × Option Int :=
  match st with
  | none => (true, some (now + ttl))
  | some e => if e ≤ now then (true, some (now + ttl)) else (false, some (now + ttl))

/-- Runs a lock step over a time-ordered list of acquisition attempts on
one key and returns the times at which the lock was granted — exactly
the times at which the dispatcher creates an alert for that key. -/
def runLock (step : Option Int → Int → Int → Bool × Option Int)
    (ttl : Int) : List Int → Option Int → List Int
  | [], _ => []
  | t :: ts, st =>
    if (step st t ttl).1 then t :: runLock step ttl ts (step st t ttl).2
    else runLock step ttl ts (step st t ttl).2

/-! ### Trip start (gpsHandler.ts)

In part_003 the start decision (lines 171-213) initialises
`shouldStart := coords.speed >= MIN_SPEED_KMH` and then, when the bus's
route has stations and the first station resolves to a position,
overrides it to `false` if the haversine distance to that station is
within `STATION_PROXIMITY_METERS`.  `stationDist` is `some d` exactly
when a route with stations is configured and the first station has a
position, `d` being the computed distance; the distance computation
itself (`haversineMeters`, float trigonometry) stays outside the
embedding — only its comparison against the radius matters here. -/

def shouldStartTrip (speed : ℚ) (stationDist : Option ℚ) : Bool :=
  let start := decide (speed ≥ MIN_SPEED_KMH)
  match stationDist with
  | some d => if d ≤ STATION_PROXIMITY_METERS then false else start
  | none => start

/-- The `TripLog.create` call of part_003's start branch: status
`in_progress`, the triggering position as the single first coordinate. -/
def mkNewTrip (busId : Nat) (routeId : Option Nat) (c : TripCoordinate) : TripRec :=
  { bus := busId, route := routeId, startTime := c.timestamp,
    endTime := none, coordinates := [c], status := "in_progress" }

/-- The part_003 no-active-trip branch as one sequential step: query the
store for an active trip and create a new one when `shouldStartTrip`
holds.  (An existing active trip leaves the store unchanged here; the
coordinate goes through the in-memory buffer instead.) -/
def startTripDispatch (store : List TripRec) (busId : Nat) (routeId : Option Nat)
    (c : TripCoordinate) (stationDist : Option ℚ) : List TripRec :=
  match findActiveTrip store busId with
  | some _ => store
  | none =>
    if shouldStartTrip (c.speed.getD 0) stationDist then
      store ++ [mkNewTrip busId routeId c]
    else
      store

/-- The same branch split at its await boundary: `TripLog.findOne` is
awaited first (observation), and `TripLog.create` runs afterwards
against whatever the observation returned.  The two phases are separate
store operations in the source — there is no atomic find-or-create — so
a second dispatch for the same vehicle can run its own observation
between another dispatch's observation and creation. -/
def dispatchObserve (store : List TripRec) (busId : Nat) : Option TripRec :=
  findActiveTrip store busId

def dispatchCommit (store : List TripRec) (busId : Nat) (routeId : Option Nat)
    (c : TripCoordinate) (stationDist : Option ℚ)
    (observed : Option TripRec) : List TripRec :=
  match observed with
  | some _ => store
  | none =>
    if shouldStartTrip (c.speed.getD 0) stationDist then
      store ++ [mkNewTrip busId routeId c]
    else
      store

/-- The part_005 variant of the start branch (lines 157-179): it creates
a trip whenever there is no active trip and the speed is at least the
moving threshold — it never consults the distance to the route's first
station. -/
def startTripDispatch005 (store : List TripRec) (busId : Nat) (routeId : Option Nat)
    (c : TripCoordinate) : List TripRec :=
  match findActiveTrip store busId with
  | some _ => store
  | none =>
    if (c.speed.getD 0) ≥ MIN_SPEED_KMH then
      store ++ [mkNewTrip busId routeId c]
    else
      store

/-- The trip-start condition in the specification's words (§4.4,
Scenario B), for the refinement comparison: no active trip, speed at
least the minimum-moving threshold, and — when a route with stations is
configured — the vehicle not within the proximity radius of the route's
first station. -/
def specTripStartCond (noActiveTrip : Bool) (speed : ℚ) (stationDist : Option ℚ) : Bool :=
  noActiveTrip && decide (speed ≥ MIN_SPEED_KMH) &&
    (match stationDist with
     | some d => decide (¬ d ≤ STATION_PROXIMITY_METERS)
     | none => true)

/-! ### End-of-trip enqueue (gpsHandler.ts)

part_003's active-trip geofence branch (lines 218-231): when the route
has stations, the first station resolves, the distance to it is within
the proximity radius and the speed is below 3 km/h, it force-flushes the
buffer and enqueues an `endTrip` job — with no dedup lock, so every
qualifying point enqueues another job.  part_005's (inactivity) ending
path instead acquires the `trip:end:busId` lock before enqueueing. -/

structure EndTripJob where
  busId : Nat
  endLat : ℚ
  endLng : ℚ
  deriving Repr, DecidableEq

/-- One qualifying-or-not point through part_003's geofence end branch:
the job queue grows by one whenever `dist ≤ 60 ∧ speed < 3`. -/
def geofenceEndStep (queue : List EndTripJob) (busId : Nat)
    (dist : ℚ) (c : TripCoordinate) : List EndTripJob :=
  if dist ≤ STATION_PROXIMITY_METERS && (c.speed.getD 0) < 3 then
    queue ++ [{ busId := busId, endLat := c.lat, endLng := c.lng }]
  else
    queue

/-- A burst of points through part_003's geofence end branch, all while
the same trip stays active (the worker has not yet processed any job). -/
def geofenceEndRun (busId : Nat) (points : List (ℚ × TripCoordinate))
    (queue : List EndTripJob) : List EndTripJob :=
  match points with
  | [] => queue
  | (d, c) :: rest => geofenceEndRun busId rest (geofenceEndStep queue busId d c)

/-- One qualifying point through part_005's locked ending path (lines
193-203): the `trip:end:busId` lock is acquired (TTL
`ALERT_DEDUPE_SECONDS`) before enqueueing; on a failed acquisition the
handler returns without enqueueing. -/
def lockedEndStep (st : List EndTripJob × Option Int) (busId : Nat)
    (now : Int) (c : TripCoordinate) : List EndTripJob × Option Int :=
  let r := acquireLock st.2 now ALERT_DEDUPE_SECONDS
  if r.1 then
    (st.1 ++ [{ busId := busId, endLat := c.lat, endLng := c.lng }], r.2)
  else
    (st.1, r.2)

def lockedEndRun (busId : Nat) (points : List (Int × TripCoordinate))
    (st : List EndTripJob × Option Int) : List EndTripJob × Option Int :=
  match points with
  | [] => st
  | (now, c) :: rest => lockedEndRun busId rest (lockedEndStep st busId now c)

/-! ### End-of-trip worker (src/workers/workers.ts, lines 80-118)

The `endTrip` handler returns unless both `busId` and `endCoords` are
present, fetches the still-active trip (`findOne { bus, endTime: null }`),
returns when there is none, and otherwise sets `endTime`, status
`completed`, pushes the final coordinate `{lat, lng, timestamp}` (no
speed), sets `passengerCount = Math.max(0, boarded - exited)` from the
RFID boarding-event counts and saves.  No other field is written: the
handler computes no distance, no duration and no average speed. -/

def finalizeTripDoc (t : TripRec) (endLat endLng : ℚ)
    (boarded exited : Nat) (now : Int) : TripRec :=
  { t with endTime := some now,
           status := "completed",
           coordinates := t.coordinates ++
             [{ lat := endLat, lng := endLng, speed := none, timestamp := now }],
           passengerCount := max 0 ((boarded : Int) - (exited : Int)) }

def endTripWorker (store : List TripRec) (busId : Option Nat)
    (endCoords : Option (ℚ × ℚ)) (boarded exited : Nat) (now : Int) : List TripRec :=
  match busId, endCoords with
  | some bus, some ec =>
    (match store with
     | [] => []
     | t :: rest =>
       if isActiveFor bus t then
         finalizeTripDoc t ec.1 ec.2 boarded exited now :: rest
       else
         t :: endTripWorker rest (some bus) (some ec) boarded exited now)
  | _, _ => store

/-- The distance the specification assigns to a finished trip: the sum
of great-circle distances between consecutive recorded coordinates,
taking the great-circle distance function as a parameter (the source's
`haversineMeters` is float trigonometry and enters the embedding only
through such a parameter). -/
def specTripDistance (gc : TripCoordinate → TripCoordinate → ℚ) :
    List TripCoordinate → ℚ
  | a :: b :: rest => gc a b + specTripDistance gc (b :: rest)
  | _ => 0

/-! ### The dispatcher (part_003 handleParsedMessage)

The dispatcher is embedded as a function of a `DispatchEnv` recording,
for each external call the handler can make, whether it succeeds and
what it returns (`Except Unit _`; an `error` is a thrown rejection), and
of the parsed message.  It returns the handler's own outcome — `ok` for
a normal return, `error` when the handler rejects to its caller — plus
the ordered list of outward effects it attempted.  Effects are logged at
the point the corresponding call is issued; a call that throws aborts
the rest of its `try` block and control resumes after the block's
`catch`, exactly as in the source. -/

inductive Effect where
  | emitAdmins (busId : Option Nat)
  | emitStudents (busId : Option Nat)
  | emitBusRoom (busId : Nat)
  | emitImeiRoom (busId : Option Nat)
  | setBusLocationWrite (busId : Nat)
  | setexImeiWrite
  | overspeedDedupe
  | overspeedAlert
  | tripCreate
  | bufferAdd
  | forceFlush
  | enqueueEndTrip
  | terminalDedupe
  | terminalAlert
  deriving Repr, DecidableEq

structure ParsedMessage where
  /-- The extracted coordinates (`hasValidCoords` plus lines 76-83). -/
  coords : Option TripCoordinate
  /-- `msg.terminalInfo`, carrying its optional `alarmType` when present. -/
  terminalInfo : Option (Option String)
  /-- Whether `msg.event?.string === "status"`. -/
  isStatusEvent : Bool
  deriving Repr, DecidableEq

structure DispatchEnv where
  /-- `getBusIdForIMEI(imei)`: the resolved vehicle, or a rejection. -/
  resolveBus : Except Unit (Option Nat)
  /-- `now - lastRedisWriteAt.get(imei) >= REDIS_LOCATION_THROTTLE_SEC * 1000`. -/
  throttleDue : Bool
  /-- The `changed` delta test against `lastLocationCache`. -/
  cacheChanged : Bool
  /-- `cacheHelpers.setBusLocation` outcome. -/
  setBusLocation : Except Unit Unit
  /-- `redisClient.setex("bus:loc:imei:" ++ imei, ...)` outcome. -/
  setexImei : Except Unit Unit
  /-- Overspeed `redisClient.set(key, "1", "EX", ttl, "NX")` reply. -/
  overspeedSet : Except Unit Bool
  /-- Overspeed `Alert.create` outcome. -/
  overspeedCreate : Except Unit Unit
  /-- `TripLog.findOne({bus, endTime: null})`: whether an active trip exists. -/
  findActive : Except Unit Bool
  /-- `Bus.findById(busId).populate("route")`: the route id, if any. -/
  busRoute : Except Unit (Option Nat)
  /-- Route-stations plus `Station.findById` plus `haversineMeters`:
  `some d` when a route with stations is configured and its first
  station resolves to a position at distance `d`; `none` otherwise. -/
  stationDist : Except Unit (Option ℚ)
  /-- `TripLog.create` outcome. -/
  tripCreateCall : Except Unit Unit
  /-- `forceFlushBus` outcome. -/
  flushCall : Except Unit Unit
  /-- `tripQueue.add("endTrip", ...)` outcome. -/
  enqueueCall : Except Unit Unit
  /-- `Date.now() - lastMovementAt.get(imei) >= INACTIVITY_END_MIN * 60 * 1000`. -/
  inactivityExceeded : Bool
  /-- Terminal-alarm dedup `redisClient.set(..., "NX")` reply. -/
  terminalSet : Except Unit Bool
  /-- Terminal-alarm `Alert.create` outcome. -/
  terminalCreate : Except Unit Unit

/-- The trip-handling `try` block of part_003 (lines 162-244) for a
registered vehicle.  Returns the effects attempted and whether control
falls through to the terminal-alert section: the start branch and the
no-`busId` path end in `return`, so only the active-trip continuation
(or a caught exception) reaches the terminal section. -/
def tripBlock (env : DispatchEnv) (c : TripCoordinate) : Bool × List Effect :=
  match env.findActive with
  | .error _ => (true, [])
  | .ok activeExists =>
    match env.busRoute with
    | .error _ => (true, [])
    | .ok _routeId =>
      if activeExists then
        -- active-trip segment: bufferCoordinate, then end detection
        match env.stationDist with
        | .error _ => (true, [.bufferAdd])
        | .ok (some d) =>
          if d ≤ STATION_PROXIMITY_METERS && (c.speed.getD 0) < 3 then
            match env.flushCall with
            | .error _ => (true, [.bufferAdd, .forceFlush])
            | .ok _ =>
              match env.enqueueCall with
              | .error _ => (true, [.bufferAdd, .forceFlush, .enqueueEndTrip])
              | .ok _ => (true, [.bufferAdd, .forceFlush, .enqueueEndTrip])
          else (true, [.bufferAdd])
        | .ok none =>
          if (c.speed.getD 0) ≥ MIN_SPEED_KMH then (true, [.bufferAdd])
          else if env.inactivityExceeded then
            match env.flushCall with
            | .error _ => (true, [.bufferAdd, .forceFlush])
            | .ok _ =>
              match env.enqueueCall with
              | .error _ => (true, [.bufferAdd, .forceFlush, .enqueueEndTrip])
              | .ok _ => (true, [.bufferAdd, .forceFlush, .enqueueEndTrip])
          else (true, [.bufferAdd])
      else
        -- start branch; ends in `return` on every non-throwing path
        match env.stationDist with
        | .error _ => (true, [])
        | .ok sd =>
          if shouldStartTrip (c.speed.getD 0) sd then
            match env.tripCreateCall with
            | .error _ => (true, [.tripCreate])
            | .ok _ => (false, [.tripCreate, .bufferAdd])
          else (false, [])

/-- The terminal/status alert section of part_003 (lines 246-280). -/
def terminalBlock (env : DispatchEnv) (msg : ParsedMessage) : List Effect :=
  match msg.terminalInfo with
  | none => []
  | some alarm =>
    if msg.isStatusEvent then
      if alarm.getD "unknown" ≠ "normal" then
        match env.terminalSet with
        | .error _ => [.terminalDedupe]
        | .ok true =>
          match env.terminalCreate with
          | .error _ => [.terminalDedupe, .terminalAlert]
          | .ok _ => [.terminalDedupe, .terminalAlert]
        | .ok false => [.terminalDedupe]
      else []
    else []

/-- part_003's `handleParsedMessage`.  `getBusIdForIMEI` is awaited
outside every `try`, so its rejection is the dispatcher's rejection; all
later blocks are individually wrapped in `try`/`catch`. -/
def handleParsedMessage (env : DispatchEnv) (msg : ParsedMessage) :
    Except Unit Unit × List Effect :=
  match env.resolveBus with
  | .error e => (.error e, [])
  | .ok busId =>
    let socketFx := [Effect.emitAdmins busId, Effect.emitStudents busId] ++
      (match busId with | some b => [Effect.emitBusRoom b] | none => []) ++
      [Effect.emitImeiRoom busId]
    match msg.coords with
    | none => (.ok (), socketFx)
    | some c =>
      let cacheFx : List Effect :=
        if env.throttleDue then
          match busId with
          | some b => if env.cacheChanged then [.setBusLocationWrite b] else []
          | none => [.setexImeiWrite]
        else []
      let overspeedFx : List Effect :=
        match busId with
        | some _ =>
          if (c.speed.getD 0) > SPEED_LIMIT_KMH then
            match env.overspeedSet with
            | .error _ => [.overspeedDedupe]
            | .ok true =>
              match env.overspeedCreate with
              | .error _ => [.overspeedDedupe, .overspeedAlert]
              | .ok _ => [.overspeedDedupe, .overspeedAlert]
            | .ok false => [.overspeedDedupe]
          else []
        | none => []
      match busId with
      | none =>
        -- line 163: `if (!busId) return;` ends the whole handler
        (.ok (), socketFx ++ cacheFx ++ overspeedFx)
      | some _ =>
        let tb := tripBlock env c
        let termFx := if tb.1 then terminalBlock env msg else []
        (.ok (), socketFx ++ cacheFx ++ overspeedFx ++ tb.2 ++ termFx)

/-! ### TCP data handlers (src/tcp/tcpServer.ts and part_016)

One `data` event: the chunk goes through `gt06.parse`.  In the named
`tcpServer.ts` a parse error is logged and the handler returns — the
chunk is dropped, though the socket stays open.  In the part_016 variant
a parse failure instead builds an opaque extended payload (raw bytes,
length, receive time) and forwards it to `handleParsedMessage`. -/

structure RawChunk where
  bytes : List Nat
  receivedAt : Int
  deriving Repr, DecidableEq

inductive ParseOutcome where
  | decoded (msgs : List ParsedMessage)
  | failed (errMsg : String)
  deriving Repr, DecidableEq

inductive Forwarded where
  | parsed (m : ParsedMessage)
  | extended (rawBytes : List Nat) (length : Nat) (receivedAt : Int)
  deriving Repr, DecidableEq

/-- The `data` handler of `src/tcp/tcpServer.ts`: what it forwards to
the dispatcher, and whether the connection keeps processing subsequent
bytes. -/
def onDataTcpServer (pr : ParseOutcome) : List Forwarded × Bool :=
  match pr with
  | .failed _ => ([], true)
  | .decoded msgs => (msgs.map .parsed, true)

/-- The `data` handler of the part_016 variant, which forwards an opaque
extended payload when structural decoding fails. -/
def onDataExtendedServer (chunk : RawChunk) (pr : ParseOutcome) :
    List Forwarded × Bool :=
  match pr with
  | .failed _ =>
    ([.extended chunk.bytes chunk.bytes.length chunk.receivedAt], true)
  | .decoded msgs => (msgs.map .parsed, true)

/-! ### Sequential store operations

Every durable-store mutation the core performs on trip records is one of
the following: the dispatcher's start branch, the buffer's batched
coordinate push, and the worker's end-trip finalisation.  `applyStoreOp`
applies one of them; a system run under per-vehicle sequential dispatch
is a fold of such operations. -/

inductive StoreOp where
  | dispatchStart (busId : Nat) (routeId : Option Nat) (c : TripCoordinate)
      (stationDist : Option ℚ)
  | flushPush (busId : Nat) (pts : List TripCoordinate) (lastUpd : Int) (curSpeed : ℚ)
  | workerEndTrip (busId : Option Nat) (endCoords : Option (ℚ × ℚ))
      (boarded exited : Nat) (now : Int)

def applyStoreOp (store : List TripRec) : StoreOp → List TripRec
  | .dispatchStart b r c sd => startTripDispatch store b r c sd
  | .flushPush b pts u s => updateOneActivePush store b pts u s
  | .workerEndTrip b ec bo ex now => endTripWorker store b ec bo ex now

/-- The active-trip uniqueness invariant: at most one trip per vehicle
has `endTime = null` in the durable store. -/
def AtMostOneActive (store : List TripRec) : Prop :=
  ∀ b : Nat, activeCount store b ≤ 1

/-! ### Concrete sample values used by witnesses and counterexamples -/

def samplePointA : TripCoordinate := { lat := 1, lng := 1, speed := some 10, timestamp := 100 }

def samplePointB : TripCoordinate := { lat := 2, lng := 2, speed := some 12, timestamp := 200 }

def sampleActiveTrip : TripRec :=
  { bus := 7, endTime := none, coordinates := [], status := "in_progress" }

def sampleCompletedTrip : TripRec :=
  { bus := 7, endTime := some 500, coordinates := [samplePointA], status := "completed" }

/-- A reading taken 30 m from the route's first station at 20 km/h. -/
def sampleNearStationPoint : TripCoordinate :=
  { lat := 0, lng := 0, speed := some 20, timestamp := 0 }

/-- A low-speed reading (1 km/h) near a station at time `t`. -/
def lowSpeedPoint (t : Int) : TripCoordinate :=
  { lat := 0, lng := 0, speed := some 1, timestamp := t }

/-- An environment in which every external call succeeds, the write
throttle is due and the delta test reports a change. -/
def okEnv : DispatchEnv :=
  { resolveBus := Except.ok (some 7), throttleDue := true, cacheChanged := true,
    setBusLocation := Except.ok (), setexImei := Except.ok (),
    overspeedSet := Except.ok true, overspeedCreate := Except.ok (),
    findActive := Except.ok false, busRoute := Except.ok none,
    stationDist := Except.ok none, tripCreateCall := Except.ok (),
    flushCall := Except.ok (), enqueueCall := Except.ok (),
    inactivityExceeded := false, terminalSet := Except.ok true,
    terminalCreate := Except.ok () }

/-- A plain location message. -/
def sampleLocationMsg : ParsedMessage :=
  { coords := some samplePointA, terminalInfo := none, isStatusEvent := false }

/-- Trip-logic effects of the dispatcher (trip creation, coordinate
buffering, force flush, end-of-trip enqueue). -/
def isTripEffect : Effect → Bool
  | .tripCreate => true
  | .bufferAdd => true
  | .forceFlush => true
  | .enqueueEndTrip => true
  | _ => false

/-- A trip whose two recorded coordinates are one degree of latitude
apart, carrying marker values in its `distance` and `avgSpeed` fields. -/
def farTripMarked (d s : ℚ) : TripRec :=
  { bus := 9, endTime := none, status := "in_progress",
    coordinates :=
      [{ lat := 0, lng := 0, speed := some 10, timestamp := 0 },
       { lat := 1, lng := 0, speed := some 10, timestamp := 3600000 }],
    distance := d, avgSpeed := s }

/-! ## Supporting lemmas about the coordinate buffer and the store -/

lemma updateOneActivePush_no_active (store : List TripRec) (busId : Nat)
    (pts : List TripCoordinate) (lu : Int) (cs : ℚ)
    (h : ∀ t ∈ store, isActiveFor busId t = false) :
    updateOneActivePush store busId pts lu cs = store := by
  induction store with
  | nil => rfl
  | cons t rest ih =>
    have ht := h t (List.mem_cons_self t rest)
    simp only [updateOneActivePush, ht, Bool.false_eq_true, if_false]
    rw [ih (fun x hx => h x (List.mem_cons_of_mem t hx))]

lemma isActiveFor_push_update (b : Nat) (t : TripRec) (pts : List TripCoordinate)
    (lu : Int) (cs : ℚ) :
    isActiveFor b { t with coordinates := t.coordinates ++ pts,
                           lastUpdate := lu, currentSpeed := cs } = isActiveFor b t := by
  simp [isActiveFor]

lemma findActiveTrip_updateOneActivePush (store : List TripRec) (busId : Nat)
    (pts : List TripCoordinate) (lu : Int) (cs : ℚ) :
    findActiveTrip (updateOneActivePush store busId pts lu cs) busId =
      (findActiveTrip store busId).map
        (fun t => { t with coordinates := t.coordinates ++ pts,
                           lastUpdate := lu, currentSpeed := cs }) := by
  induction store with
  | nil => rfl
  | cons t rest ih =>
    by_cases ht : isActiveFor busId t = true
    · have hmod := isActiveFor_push_update busId t pts lu cs
      simp only [updateOneActivePush, ht, if_true, findActiveTrip]
      rw [List.find?_cons_of_pos _ (hmod.trans ht), List.find?_cons_of_pos _ ht]
      rfl
    · have ht' : isActiveFor busId t = false := by
        cases hb : isActiveFor busId t
        · rfl
        · exact absurd hb ht
      simp only [updateOneActivePush, ht', Bool.false_eq_true, if_false, findActiveTrip]
      rw [List.find?_cons_of_neg _ (by simp [ht']), List.find?_cons_of_neg _ (by simp [ht'])]
      exact ih

lemma activeCoords_updateOneActivePush (store : List TripRec) (busId : Nat)
    (pts : List TripCoordinate) (lu : Int) (cs : ℚ)
    (h : (findActiveTrip store busId).isSome = true) :
    activeCoords (updateOneActivePush store busId pts lu cs) busId =
      activeCoords store busId ++ pts := by
  obtain ⟨t, ht⟩ := Option.isSome_iff_exists.mp h
  simp [activeCoords, findActiveTrip_updateOneActivePush, ht]

lemma findActiveTrip_updateOneActivePush_isSome (store : List TripRec) (busId : Nat)
    (pts : List TripCoordinate) (lu : Int) (cs : ℚ) :
    (findActiveTrip (updateOneActivePush store busId pts lu cs) busId).isSome =
      (findActiveTrip store busId).isSome := by
  rw [findActiveTrip_updateOneActivePush]
  cases findActiveTrip store busId <;> rfl

/-! ## C10 -/

/-- Claim C10 (confirmed): when a flush runs for a vehicle with no
active trip in the durable store, the batched `updateOne` matches no
document, the flush is treated as successful, the store is unchanged,
and the buffered batch is removed from the in-memory buffer without
being persisted anywhere (only points that arrived during the flush
remain buffered). -/
theorem flush_without_active_trip_discards (busId : Nat)
    (buffer arrived : List TripCoordinate) (store : List TripRec)
    (h : ∀ t ∈ store, isActiveFor busId t = false) :
    (flushBusCoordinates busId buffer arrived store false).store = store ∧
    (flushBusCoordinates busId buffer arrived store false).buffer = arrived := by
  cases buffer with
  | nil => exact ⟨rfl, rfl⟩
  | cons b0 bs =>
    constructor
    · simp only [flushBusCoordinates, Bool.false_eq_true, if_false]
      exact updateOneActivePush_no_active _ _ _ _ _ h
    · rfl

/-- Witness for C10: a vehicle whose only stored trip is already
completed; a flush of one buffered point leaves the store unchanged and
empties the buffer. -/
theorem flush_without_active_trip_discards_witness :
    (∀ t ∈ [sampleCompletedTrip], isActiveFor 7 t = false) ∧
    ((flushBusCoordinates 7 [samplePointA] [] [sampleCompletedTrip] false).store =
        [sampleCompletedTrip] ∧
      (flushBusCoordinates 7 [samplePointA] [] [sampleCompletedTrip] false).buffer = []) :=
  ⟨by decide, flush_without_active_trip_discards 7 [samplePointA] [] [sampleCompletedTrip]
    (by decide)⟩

/-! ## C3 -/

lemma flushBusCoordinates_fail (busId : Nat) (buffer arrived : List TripCoordinate)
    (store : List TripRec) :
    flushBusCoordinates busId buffer arrived store true =
      { buffer := arrived ++ buffer, store := store } := by
  cases buffer with
  | nil => simp [flushBusCoordinates]
  | cons b0 bs => rfl

lemma flushBusCoordinates_ok (busId : Nat) (buffer arrived : List TripCoordinate)
    (store : List TripRec) (h : (findActiveTrip store busId).isSome = true) :
    activeCoords (flushBusCoordinates busId buffer arrived store false).store busId =
      activeCoords store busId ++ buffer ∧
    (flushBusCoordinates busId buffer arrived store false).buffer = arrived ∧
    (findActiveTrip (flushBusCoordinates busId buffer arrived store false).store
        busId).isSome = true := by
  cases buffer with
  | nil => exact ⟨by simp [flushBusCoordinates], rfl, h⟩
  | cons b0 bs =>
    refine ⟨activeCoords_updateOneActivePush _ _ _ _ _ h, rfl, ?_⟩
    show (findActiveTrip (updateOneActivePush store busId (b0 :: bs) _ _) busId).isSome = true
    rw [findActiveTrip_updateOneActivePush_isSome]
    exact h

/-- Claim C3 (counterexample): the source re-merges a failed batch at
the BACK of the live buffer (`[...existing, ...buffer]`), behind the
points that arrived while the flush was in flight.  With one active
trip, batch `[samplePointA]`, and `samplePointB` arriving during the
failed flush, the retry appends `[samplePointB, samplePointA]`, whereas
the failure-free execution appends `[samplePointA, samplePointB]` — the
claim's re-merge-to-front and equal-ordered-sequence statements are both
false at this input. -/
theorem flush_failure_reorders_counterexample :
    activeCoords (failThenRetry 7 [samplePointA] [samplePointB] [sampleActiveTrip]).store 7 =
      [samplePointB, samplePointA] ∧
    activeCoords (flushTwiceOk 7 [samplePointA] [samplePointB] [sampleActiveTrip]).store 7 =
      [samplePointA, samplePointB] ∧
    samplePointA ≠ samplePointB := by
  refine ⟨by decide, by decide, by decide⟩

/-- Claim C3 (amended): on flush failure the batch is re-merged into the
BACK of the live buffer, behind points that arrived during the failed
flush.  A failure followed by a successful retry appends `arrived ++
batch` to the active trip, while the failure-free execution appends
`batch ++ arrived`: the same points — none lost, none duplicated (the
two appends are permutations of one another) — and exactly the same
ordered sequence whenever no point arrived during the failed flush. -/
theorem flush_failure_retry_amended (busId : Nat)
    (batch arrived : List TripCoordinate) (store : List TripRec)
    (h : (findActiveTrip store busId).isSome = true) :
    activeCoords (failThenRetry busId batch arrived store).store busId =
      activeCoords store busId ++ (arrived ++ batch) ∧
    activeCoords (flushTwiceOk busId batch arrived store).store busId =
      activeCoords store busId ++ (batch ++ arrived) ∧
    (arrived ++ batch).Perm (batch ++ arrived) ∧
    (arrived = [] →
      activeCoords (failThenRetry busId batch arrived store).store busId =
        activeCoords (flushTwiceOk busId batch arrived store).store busId) := by
  have hfail : activeCoords (failThenRetry busId batch arrived store).store busId =
      activeCoords store busId ++ (arrived ++ batch) := by
    unfold failThenRetry
    rw [flushBusCoordinates_fail]
    exact (flushBusCoordinates_ok busId (arrived ++ batch) [] store h).1
  have hok : activeCoords (flushTwiceOk busId batch arrived store).store busId =
      activeCoords store busId ++ (batch ++ arrived) := by
    obtain ⟨h1, h2, h3⟩ := flushBusCoordinates_ok busId batch arrived store h
    show activeCoords (flushBusCoordinates busId
      (flushBusCoordinates busId batch arrived store false).buffer []
      (flushBusCoordinates busId batch arrived store false).store false).store busId = _
    rw [h2]
    rw [(flushBusCoordinates_ok busId arrived []
      (flushBusCoordinates busId batch arrived store false).store h3).1, h1,
      List.append_assoc]
  refine ⟨hfail, hok, List.perm_append_comm, fun ha => ?_⟩
  subst ha
  rw [hfail, hok]
  simp

/-- Witness for the amended C3 theorem: one active trip in the store. -/
theorem flush_failure_retry_amended_witness :
    (findActiveTrip [sampleActiveTrip] 7).isSome = true ∧
    activeCoords (failThenRetry 7 [samplePointA] [samplePointB] [sampleActiveTrip]).store 7 =
      activeCoords [sampleActiveTrip] 7 ++ ([samplePointB] ++ [samplePointA]) :=
  ⟨by decide, (flush_failure_retry_amended 7 [samplePointA] [samplePointB]
    [sampleActiveTrip] (by decide)).1⟩

/-! ## C4 -/

/-- Properties shared by both embedded lock primitives: an absent (or
expired) key is set with a fresh TTL and the acquisition succeeds; a
successful acquisition from a live key requires the key to have expired;
and a failed acquisition either leaves the expiry untouched
(`redisSetNxEx`) or refreshes it to a full TTL (`acquireLock`). -/
def GoodLockStep (step : Option Int → Int → Int → Bool × Option Int) (ttl : Int) : Prop :=
  (∀ now, step none now ttl = (true, some (now + ttl))) ∧
  (∀ e now, (step (some e) now ttl).1 = true → e ≤ now) ∧
  (∀ e now, (step (some e) now ttl).1 = true →
    (step (some e) now ttl).2 = some (now + ttl)) ∧
  (∀ e now, (step (some e) now ttl).1 = false →
    (step (some e) now ttl).2 = some e ∨ (step (some e) now ttl).2 = some (now + ttl))

lemma redisSetNxEx_good (ttl : Int) : GoodLockStep redisSetNxEx ttl := by
  refine ⟨fun now => rfl, fun e now h => ?_, fun e now h => ?_, fun e now h => ?_⟩
  · by_cases he : e ≤ now
    · exact he
    · simp [redisSetNxEx, he] at h
  · by_cases he : e ≤ now
    · simp [redisSetNxEx, he]
    · simp [redisSetNxEx, he] at h
  · by_cases he : e ≤ now
    · simp [redisSetNxEx, he] at h
    · left; simp [redisSetNxEx, he]

lemma acquireLock_good (ttl : Int) : GoodLockStep acquireLock ttl := by
  refine ⟨fun now => rfl, fun e now h => ?_, fun e now h => ?_, fun e now h => ?_⟩
  · by_cases he : e ≤ now
    · exact he
    · simp [acquireLock, he] at h
  · by_cases he : e ≤ now
    · simp [acquireLock, he]
    · simp [acquireLock, he] at h
  · by_cases he : e ≤ now
    · simp [acquireLock, he] at h
    · right; simp [acquireLock, he]

/-- Every grant reached from a live key at expiry `e` happens at or
after `e`, provided attempt times are non-decreasing and every attempt
lies within one TTL of the key's creation. -/
lemma runLock_success_lb (step : Option Int → Int → Int → Bool × Option Int)
    (ttl : Int) (hstep : GoodLockStep step ttl) (httl : 0 ≤ ttl) :
    ∀ (ts : List Int) (e : Int), List.Pairwise (· ≤ ·) ts →
      (∀ t ∈ ts, e - ttl ≤ t) →
      ∀ s ∈ runLock step ttl ts (some e), e ≤ s := by
  intro ts
  induction ts with
  | nil => intro e _ _ s hs; simp [runLock] at hs
  | cons t ts ih =>
    intro e hp hpre s hs
    rw [List.pairwise_cons] at hp
    by_cases hb : (step (some e) t ttl).1 = true
    · have het := hstep.2.1 e t hb
      have hst2 := hstep.2.2.1 e t hb
      rw [runLock, if_pos hb, hst2] at hs
      rcases List.mem_cons.mp hs with rfl | hs'
      · exact het
      · have := ih (t + ttl) hp.2
          (fun u hu => by have := hp.1 u hu; omega) s hs'
        omega
    · have hbf : (step (some e) t ttl).1 = false := by
        cases hx : (step (some e) t ttl).1
        · rfl
        · exact absurd hx hb
      rw [runLock, if_neg (by simp [hbf])] at hs
      rcases hstep.2.2.2 e t hbf with h2 | h2
      · rw [h2] at hs
        exact ih e hp.2 (fun u hu => hpre u (List.mem_cons_of_mem t hu)) s hs
      · rw [h2] at hs
        have := ih (t + ttl) hp.2
          (fun u hu => by have := hp.1 u hu; omega) s hs
        have hte := hpre t (List.mem_cons_self t ts)
        omega

/-- Successive grants of one dedup key are at least one TTL apart. -/
lemma runLock_chain (step : Option Int → Int → Int → Bool × Option Int)
    (ttl : Int) (hstep : GoodLockStep step ttl) (httl : 0 ≤ ttl) :
    ∀ (ts : List Int) (st : Option Int), List.Pairwise (· ≤ ·) ts →
      (∀ e, st = some e → ∀ t ∈ ts, e - ttl ≤ t) →
      List.Chain' (fun a b => a + ttl ≤ b) (runLock step ttl ts st) := by
  intro ts
  induction ts with
  | nil => intro st _ _; simp [runLock]
  | cons t ts ih =>
    intro st hp hpre
    rw [List.pairwise_cons] at hp
    cases st with
    | none =>
      have h0 := hstep.1 t
      rw [runLock, h0]
      simp only [if_true]
      rw [List.chain'_cons']
      refine ⟨fun b hb => ?_, ?_⟩
      · have hmem := List.mem_of_mem_head? hb
        have := runLock_success_lb step ttl hstep httl ts (t + ttl) hp.2
          (fun u hu => by have := hp.1 u hu; omega) b hmem
        omega
      · exact ih (some (t + ttl)) hp.2
          (fun e he u hu => by injection he with he'; subst he'; have := hp.1 u hu; omega)
    | some e =>
      by_cases hb : (step (some e) t ttl).1 = true
      · have hst2 := hstep.2.2.1 e t hb
        rw [runLock, if_pos hb, hst2]
        rw [List.chain'_cons']
        refine ⟨fun b hbm => ?_, ?_⟩
        · have hmem := List.mem_of_mem_head? hbm
          have := runLock_success_lb step ttl hstep httl ts (t + ttl) hp.2
            (fun u hu => by have := hp.1 u hu; omega) b hmem
          omega
        · exact ih (some (t + ttl)) hp.2
            (fun e2 he u hu => by injection he with he'; subst he'; have := hp.1 u hu; omega)
      · have hbf : (step (some e) t ttl).1 = false := by
          cases hx : (step (some e) t ttl).1
          · rfl
          · exact absurd hx hb
        rw [runLock, if_neg (by simp [hbf])]
        rcases hstep.2.2.2 e t hbf with h2 | h2
        · rw [h2]
          exact ih (some e) hp.2
            (fun e2 he u hu => by
              injection he with he'
              exact he' ▸ hpre e rfl u (List.mem_cons_of_mem t hu))
        · rw [h2]
          exact ih (some (t + ttl)) hp.2
            (fun e2 he u hu => by injection he with he'; subst he'; have := hp.1 u hu; omega)

/-- A chain of grants with gaps of at least one TTL puts at most one
grant in any rolling window of one TTL's length. -/
lemma chain_gap_window (S : List Int) (ttl w : Int) (httl : 0 ≤ ttl)
    (hc : List.Chain' (fun a b => a + ttl ≤ b) S) :
    (S.filter (fun t => decide (w ≤ t) && decide (t < w + ttl))).length ≤ 1 := by
  haveI : IsTrans Int (fun a b => a + ttl ≤ b) :=
    ⟨fun _ b _ hab hbc => le_trans hab (le_trans (le_add_of_nonneg_right httl) hbc)⟩
  have hpw : List.Pairwise (fun a b : Int => a + ttl ≤ b) S :=
    List.chain'_iff_pairwise.mp hc
  have hfil : List.Pairwise (fun a b : Int => a + ttl ≤ b)
      (S.filter (fun t => decide (w ≤ t) && decide (t < w + ttl))) :=
    hpw.sublist (List.filter_sublist S)
  cases hS : S.filter (fun t => decide (w ≤ t) && decide (t < w + ttl)) with
  | nil => simp
  | cons a l =>
    cases l with
    | nil => simp
    | cons b l2 =>
      exfalso
      rw [hS] at hfil
      have hab : a + ttl ≤ b :=
        (List.pairwise_cons.mp hfil).1 b (List.mem_cons_self b l2)
      have hamem : a ∈ S.filter (fun t => decide (w ≤ t) && decide (t < w + ttl)) := by
        rw [hS]; exact List.mem_cons_self a (b :: l2)
      have hbmem : b ∈ S.filter (fun t => decide (w ≤ t) && decide (t < w + ttl)) := by
        rw [hS]; exact List.mem_cons_of_mem a (List.mem_cons_self b l2)
      have hap := List.of_mem_filter hamem
      have hbp := List.of_mem_filter hbmem
      simp only [Bool.and_eq_true, decide_eq_true_eq] at hap hbp
      omega

/-- Claim C4 (counterexample): part_005's `acquireLock` is not a single
conditional-set-with-expiry — its unconditional `expire` refreshes the
key's TTL on every attempt, including failed ones.  Overspeed attempts
at times 0 s, 100 s and 200 s with the default 120 s TTL yield an alert
only at time 0 under `acquireLock` (the attempt at 100 pushes the expiry
to 220, so the attempt at 200 — a full TTL after the only alert — is
refused), while the single-command `SET NX EX` of part_003 grants again
at 200.  This refutes "exactly one high-priority overspeed alert per
120-second window" for the part_005 variant. -/
theorem acquireLock_ttl_refresh_counterexample :
    runLock acquireLock ALERT_DEDUPE_SECONDS [0, 100, 200] none = [0] ∧
    runLock redisSetNxEx ALERT_DEDUPE_SECONDS [0, 100, 200] none = [0, 200] := by
  decide

/-- Claim C4 (amended): both embedded lock primitives are atomic against
the cache (redis serialises the `SET NX EX` command and the `MULTI`
transaction, so racing callers are a time-ordered attempt sequence), and
under either primitive at most one acquisition succeeds — hence at most
one alert of a given condition is created per device — within any
rolling window of the 120-second TTL.  The part_003 primitive is a
single conditional-set-with-expiry; the part_005 one is a
`setnx`-then-`expire` transaction whose failed attempts extend the
window, so "exactly one alert per window" holds only for part_003. -/
theorem dedupe_lock_window_amended (ts : List Int) (w : Int)
    (hts : List.Pairwise (· ≤ ·) ts) :
    ((runLock redisSetNxEx ALERT_DEDUPE_SECONDS ts none).filter
        (fun t => decide (w ≤ t) && decide (t < w + ALERT_DEDUPE_SECONDS))).length ≤ 1 ∧
    ((runLock acquireLock ALERT_DEDUPE_SECONDS ts none).filter
        (fun t => decide (w ≤ t) && decide (t < w + ALERT_DEDUPE_SECONDS))).length ≤ 1 := by
  have httl : (0 : Int) ≤ ALERT_DEDUPE_SECONDS := by decide
  constructor
  · exact chain_gap_window _ _ _ httl
      (runLock_chain redisSetNxEx ALERT_DEDUPE_SECONDS (redisSetNxEx_good _) httl ts none
        hts (fun e he => nomatch he))
  · exact chain_gap_window _ _ _ httl
      (runLock_chain acquireLock ALERT_DEDUPE_SECONDS (acquireLock_good _) httl ts none
        hts (fun e he => nomatch he))

/-- Witness for the amended C4 theorem: three overspeed readings at
times 0, 100 and 200 seconds and the window starting at 0. -/
theorem dedupe_lock_window_amended_witness :
    List.Pairwise (· ≤ ·) ([0, 100, 200] : List Int) ∧
    ((runLock redisSetNxEx ALERT_DEDUPE_SECONDS [0, 100, 200] none).filter
        (fun t => decide ((0:Int) ≤ t) && decide (t < 0 + ALERT_DEDUPE_SECONDS))).length ≤ 1 :=
  ⟨by decide, (dedupe_lock_window_amended [0, 100, 200] 0 (by decide)).1⟩

/-! ## C1 -/

lemma activeCount_cons (t : TripRec) (rest : List TripRec) (b : Nat) :
    activeCount (t :: rest) b =
      activeCount rest b + (if isActiveFor b t then 1 else 0) := by
  simp [activeCount, List.countP_cons]

lemma activeCount_updateOneActivePush (store : List TripRec) (busId b : Nat)
    (pts : List TripCoordinate) (lu : Int) (cs : ℚ) :
    activeCount (updateOneActivePush store busId pts lu cs) b = activeCount store b := by
  induction store with
  | nil => rfl
  | cons t rest ih =>
    by_cases ht : isActiveFor busId t = true
    · simp only [updateOneActivePush, ht, if_true]
      rw [activeCount_cons, activeCount_cons, isActiveFor_push_update]
    · have ht' : isActiveFor busId t = false := by
        cases hx : isActiveFor busId t
        · rfl
        · exact absurd hx ht
      simp only [updateOneActivePush, ht', Bool.false_eq_true, if_false]
      rw [activeCount_cons, activeCount_cons, ih]

lemma activeCount_eq_zero_of_find_none (store : List TripRec) (busId : Nat)
    (hf : findActiveTrip store busId = none) : activeCount store busId = 0 := by
  unfold activeCount
  rw [List.countP_eq_zero]
  intro t ht
  have := List.find?_eq_none.mp hf t ht
  simpa using this

lemma activeCount_startTripDispatch_le (store : List TripRec) (busId b : Nat)
    (r : Option Nat) (c : TripCoordinate) (sd : Option ℚ)
    (h : activeCount store b ≤ 1) :
    activeCount (startTripDispatch store busId r c sd) b ≤ 1 := by
  unfold startTripDispatch
  cases hf : findActiveTrip store busId with
  | some t => exact h
  | none =>
    by_cases hs : shouldStartTrip (c.speed.getD 0) sd = true
    · rw [if_pos hs]
      unfold activeCount
      rw [List.countP_append]
      by_cases hb : b = busId
      · subst hb
        have h0 := activeCount_eq_zero_of_find_none store b hf
        unfold activeCount at h0
        rw [h0]
        simp [mkNewTrip, isActiveFor]
      · have hnew : isActiveFor b (mkNewTrip busId r c) = false := by
          simp only [mkNewTrip, isActiveFor]
          simp [Ne.symm hb]
        have : List.countP (fun t => isActiveFor b t) [mkNewTrip busId r c] = 0 := by
          simp [hnew]
        rw [this]
        exact h
    · rw [if_neg hs]
      exact h

lemma isActiveFor_finalize_false (b : Nat) (t : TripRec) (la ln : ℚ)
    (bo ex : Nat) (now : Int) :
    isActiveFor b (finalizeTripDoc t la ln bo ex now) = false := by
  simp [finalizeTripDoc, isActiveFor]

lemma activeCount_endTripWorker_le (store : List TripRec) (bus : Option Nat)
    (ec : Option (ℚ × ℚ)) (bo ex : Nat) (now : Int) (b : Nat) :
    activeCount (endTripWorker store bus ec bo ex now) b ≤ activeCount store b := by
  cases bus with
  | none => simp [endTripWorker]
  | some bs =>
    cases ec with
    | none => simp [endTripWorker]
    | some e =>
      induction store with
      | nil => simp [endTripWorker]
      | cons t rest ih =>
        by_cases ht : isActiveFor bs t = true
        · rw [show endTripWorker (t :: rest) (some bs) (some e) bo ex now =
              finalizeTripDoc t e.1 e.2 bo ex now :: rest by
            simp [endTripWorker, ht]]
          rw [activeCount_cons, activeCount_cons, isActiveFor_finalize_false]
          simp only [Bool.false_eq_true, if_false]
          split <;> omega
        · have ht' : isActiveFor bs t = false := by
            cases hx : isActiveFor bs t
            · rfl
            · exact absurd hx ht
          rw [show endTripWorker (t :: rest) (some bs) (some e) bo ex now =
              t :: endTripWorker rest (some bs) (some e) bo ex now by
            simp [endTripWorker, ht']]
          rw [activeCount_cons, activeCount_cons]
          have hle := ih
          split <;> omega

lemma applyStoreOp_preserves (store : List TripRec) (op : StoreOp)
    (h : AtMostOneActive store) : AtMostOneActive (applyStoreOp store op) := by
  intro b
  cases op with
  | dispatchStart busId r c sd =>
    exact activeCount_startTripDispatch_le store busId b r c sd (h b)
  | flushPush busId pts lu cs =>
    show activeCount (updateOneActivePush store busId pts lu cs) b ≤ 1
    rw [activeCount_updateOneActivePush]
    exact h b
  | workerEndTrip bus ec bo ex now =>
    exact le_trans (activeCount_endTripWorker_le store bus ec bo ex now b) (h b)

/-- Claim C1 (counterexample): the source starts a trip with a
`TripLog.findOne` await followed by a separate `TripLog.create` — there
is no atomic find-or-create.  Splitting the branch at that await
boundary, two concurrent dispatches for vehicle 7 may both observe "no
active trip" against the same store before either creates, after which
both create: the store ends with two trips whose end time is null,
violating active-trip uniqueness at that observation point. -/
theorem find_or_create_race_counterexample :
    activeCount
      (dispatchCommit
        (dispatchCommit [] 7 none samplePointA none (dispatchObserve [] 7))
        7 none samplePointA none (dispatchObserve [] 7)) 7 = 2 := by
  decide

/-- Claim C1 (amended): under per-vehicle sequential dispatch — no
interleaving of two dispatch steps for the same vehicle, which the
deployment provides by giving each vehicle a single device connection —
every reachable store keeps at most one active trip per vehicle: the
dispatcher creates only after `findOne` reports no active trip, the
buffer flush never touches `endTime`, and the end-trip worker only
completes trips.  The find and create are still two separate store
operations, not an atomic find-or-create, so the invariant is
conditional on that non-interleaving assumption (see the
counterexample). -/
theorem active_trip_unique_sequential (store : List TripRec) (ops : List StoreOp)
    (h : AtMostOneActive store) :
    AtMostOneActive (ops.foldl applyStoreOp store) := by
  induction ops generalizing store with
  | nil => exact h
  | cons op ops ih => exact ih (applyStoreOp store op) (applyStoreOp_preserves store op h)

/-- Witness for the amended C1 theorem: from an empty store, a start, a
batched coordinate flush and an end-trip job keep the invariant. -/
theorem active_trip_unique_sequential_witness :
    AtMostOneActive ([] : List TripRec) ∧
    AtMostOneActive
      (([StoreOp.dispatchStart 7 none samplePointA none,
         StoreOp.flushPush 7 [samplePointB] 200 12,
         StoreOp.workerEndTrip (some 7) (some (2, 2)) 3 1 900]).foldl applyStoreOp []) := by
  have h0 : AtMostOneActive ([] : List TripRec) := by
    intro b
    simp [activeCount]
  exact ⟨h0, active_trip_unique_sequential [] _ h0⟩

/-! ## C5 -/

/-- Claim C5 (counterexample): the part_005 variant of the start branch
never consults the distance to the route's first station.  A vehicle
with no active trip, 30 m from its route's first station, moving at
20 km/h: the claim's start condition is false (30 ≤ 60 m), yet the
part_005 dispatcher creates a trip. -/
theorem trip_start_geofence_ignored_counterexample :
    specTripStartCond true 20 (some 30) = false ∧
    (startTripDispatch005 [] 7 (some 3) sampleNearStationPoint).length = 1 := by
  decide

/-- Claim C5 (amended): in the part_003 variant the claim holds exactly
as stated — a new trip is created iff there is no active trip, the speed
is at least the 5 km/h minimum and, when a route with stations is
configured and its first station resolves to a position, the vehicle is
not within the 60 m proximity radius; the created trip has status
`in_progress` and the triggering position as its single coordinate.  The
part_005 variant omits the proximity condition (see counterexample). -/
theorem trip_start_amended (store : List TripRec) (busId : Nat) (r : Option Nat)
    (c : TripCoordinate) (sd : Option ℚ) :
    startTripDispatch store busId r c sd =
      (if specTripStartCond (findActiveTrip store busId).isNone (c.speed.getD 0) sd
       then store ++ [mkNewTrip busId r c] else store) ∧
    (mkNewTrip busId r c).status = "in_progress" ∧
    (mkNewTrip busId r c).coordinates = [c] ∧
    (mkNewTrip busId r c).endTime = none := by
  refine ⟨?_, rfl, rfl, rfl⟩
  unfold startTripDispatch specTripStartCond shouldStartTrip
  cases findActiveTrip store busId with
  | some t => simp
  | none =>
    cases sd with
    | none => simp
    | some d =>
      by_cases hd : d ≤ STATION_PROXIMITY_METERS
      · simp [hd]
      · simp [hd]

/-! ## C2 -/

/-- Claim C2 (code evaluation at the failing input): part_003's geofence
ending path (the path Scenario C describes) has no dedup lock before the
enqueue, so three low-speed points arriving 30 m from the first station
while the trip is still active enqueue three `endTrip` jobs.  part_005's
locked path, which acquires `trip:end:busId` before enqueueing, enqueues
exactly one job for an equally rapid burst. -/
theorem endtrip_enqueue_without_lock_evaluates :
    (geofenceEndRun 7 [(30, lowSpeedPoint 0), (30, lowSpeedPoint 300),
        (30, lowSpeedPoint 600)] []).length = 3 ∧
    (lockedEndRun 7 [(0, lowSpeedPoint 0), (0, lowSpeedPoint 300),
        (1, lowSpeedPoint 600)] ([], none)).1.length = 1 := by
  decide

/-! ## C6 -/

/-- Claim C6 (counterexample): the end-trip worker leaves `distance` and
`avgSpeed` exactly as it found them.  Two stored trips with identical
coordinate lists (two points one degree of latitude apart) but different
marker values keep their respective markers after the worker runs, so
the stored distance is not a function of the recorded coordinates at
all — contradicting "computes total distance as the sum of great-circle
distances between consecutive recorded coordinates" (for any great-
circle function, `specTripDistance` is determined by the coordinates). -/
theorem endtrip_distance_not_computed_counterexample :
    ((endTripWorker [farTripMarked 77 7] (some 9) (some (2, 0)) 5 2 7200000).map
        (fun t => (t.distance, t.avgSpeed))) = [(77, 7)] ∧
    ((endTripWorker [farTripMarked 88 8] (some 9) (some (2, 0)) 5 2 7200000).map
        (fun t => (t.distance, t.avgSpeed))) = [(88, 8)] ∧
    (farTripMarked 77 7).coordinates = (farTripMarked 88 8).coordinates ∧
    specTripDistance (fun _ _ => 1) (farTripMarked 77 7).coordinates = 1 := by
  refine ⟨by decide, by decide, by decide, ?_⟩
  show (1 : ℚ) + specTripDistance (fun _ _ => 1) _ = 1
  norm_num [specTripDistance]

/-- Claim C6 (amended): the end-trip job handler fetches the still-
active trip for the vehicle, pushes the final coordinate, sets passenger
count to `max(0, boarded − exited)` from the boarding-event counts, sets
`endTime` and status `completed`, and persists the record; it computes
no distance, no duration and no average speed — those fields are left
unchanged. -/
theorem endtrip_worker_amended (pre post : List TripRec) (t : TripRec) (bus : Nat)
    (ec : ℚ × ℚ) (boarded exited : Nat) (now : Int)
    (hpre : ∀ u ∈ pre, isActiveFor bus u = false)
    (ht : isActiveFor bus t = true) :
    endTripWorker (pre ++ t :: post) (some bus) (some ec) boarded exited now =
      pre ++ finalizeTripDoc t ec.1 ec.2 boarded exited now :: post ∧
    (finalizeTripDoc t ec.1 ec.2 boarded exited now).passengerCount =
      max 0 ((boarded : Int) - (exited : Int)) ∧
    (finalizeTripDoc t ec.1 ec.2 boarded exited now).status = "completed" ∧
    (finalizeTripDoc t ec.1 ec.2 boarded exited now).endTime = some now ∧
    (finalizeTripDoc t ec.1 ec.2 boarded exited now).coordinates =
      t.coordinates ++ [{ lat := ec.1, lng := ec.2, speed := none, timestamp := now }] ∧
    (finalizeTripDoc t ec.1 ec.2 boarded exited now).distance = t.distance ∧
    (finalizeTripDoc t ec.1 ec.2 boarded exited now).avgSpeed = t.avgSpeed ∧
    (finalizeTripDoc t ec.1 ec.2 boarded exited now).startTime = t.startTime := by
  refine ⟨?_, rfl, rfl, rfl, rfl, rfl, rfl, rfl⟩
  induction pre with
  | nil =>
    simp only [List.nil_append]
    simp [endTripWorker, ht]
  | cons p ps ih =>
    have hp := hpre p (List.mem_cons_self p ps)
    simp only [List.cons_append]
    rw [show endTripWorker (p :: (ps ++ t :: post)) (some bus) (some ec) boarded exited now =
        p :: endTripWorker (ps ++ t :: post) (some bus) (some ec) boarded exited now by
      simp [endTripWorker, hp]]
    rw [ih (fun u hu => hpre u (List.mem_cons_of_mem p hu))]

/-- Witness for the amended C6 theorem: a single active trip with
markers 77 and 7 in `distance` and `avgSpeed`, five boardings and two
exits. -/
theorem endtrip_worker_amended_witness :
    ((∀ u ∈ ([] : List TripRec), isActiveFor 9 u = false) ∧
      isActiveFor 9 (farTripMarked 77 7) = true) ∧
    endTripWorker ([] ++ farTripMarked 77 7 :: []) (some 9) (some (2, 0)) 5 2 7200000 =
      [] ++ finalizeTripDoc (farTripMarked 77 7) 2 0 5 2 7200000 :: [] :=
  ⟨⟨by decide, by decide⟩,
    (endtrip_worker_amended [] [] (farTripMarked 77 7) 9 (2, 0) 5 2 7200000
      (by decide) (by decide)).1⟩

/-! ## C7 -/

/-- Claim C7 (counterexample): `getBusIdForIMEI` is awaited outside
every `try` block of part_003's dispatcher, so an identity-resolution
rejection (total durable-store failure inside `getBusIdForIMEI`, whose
own catch merely retries the store once) rejects `handleParsedMessage`
to its caller — refuting "never throws to its caller". -/
theorem dispatcher_throws_on_resolve_failure_counterexample :
    (handleParsedMessage { okEnv with resolveBus := Except.error () }
        sampleLocationMsg).1 = Except.error () := rfl

/-- Claim C7 (amended): part_003's dispatcher rejects exactly when
identity resolution rejects — every other step (cache write, alert
dedup check and creation, trip logic, flush, job enqueue) is wrapped in
its own `try`/`catch`, and its failure does not prevent logically
independent later steps: in particular the trip-logic effects are the
same whether the throttled cache write succeeds or fails.  (The part_005
variant additionally propagates failures of its unguarded overspeed and
terminal-alert paths.) -/
theorem dispatcher_error_amended (env : DispatchEnv) (msg : ParsedMessage) :
    (handleParsedMessage env msg).1 = env.resolveBus.map (fun _ => ()) ∧
    (handleParsedMessage { env with setBusLocation := Except.error () } msg).2.filter
        isTripEffect =
      (handleParsedMessage { env with setBusLocation := Except.ok () } msg).2.filter
        isTripEffect := by
  constructor
  · cases hr : env.resolveBus with
    | error e => simp [handleParsedMessage, hr, Except.map]
    | ok b =>
      cases hc : msg.coords with
      | none => simp [handleParsedMessage, hr, hc, Except.map]
      | some c => cases b <;> simp [handleParsedMessage, hr, hc, Except.map]
  · rfl

/-! ## C8 -/

/-- Claim C8 (counterexample): for a location frame from a device with
no registered vehicle, part_003's throttled-write block takes its `else`
branch and writes the location to the shared cache under an imei-scoped
key (`redisClient.setex("bus:loc:imei:" ++ imei, 180, ...)`) — a cache
write, contradicting "performs no cache write". -/
theorem unregistered_cache_write_counterexample :
    Effect.setexImeiWrite ∈
      (handleParsedMessage { okEnv with resolveBus := Except.ok none }
        sampleLocationMsg).2 := by
  decide

/-- Claim C8 (amended): for a location message resolving to no vehicle,
part_003 emits the real-time events with a null vehicle reference and
performs no trip logic and no alert creation, but it does perform a
cache write — the imei-keyed `setex` — whenever the write throttle is
due; it then returns without reaching the terminal-alert section.  (The
part_005 variant returns before any cache write, matching the claim.) -/
theorem unregistered_device_amended (env : DispatchEnv) (c : TripCoordinate)
    (ti : Option (Option String)) (st : Bool) :
    (handleParsedMessage { env with resolveBus := Except.ok none }
        { coords := some c, terminalInfo := ti, isStatusEvent := st }).2 =
      [Effect.emitAdmins none, Effect.emitStudents none, Effect.emitImeiRoom none] ++
        (if env.throttleDue then [Effect.setexImeiWrite] else []) ∧
    (handleParsedMessage { env with resolveBus := Except.ok none }
        { coords := some c, terminalInfo := ti, isStatusEvent := st }).1 =
      Except.ok () := by
  by_cases hT : env.throttleDue <;>
    simp [handleParsedMessage, hT]

/-! ## C9 -/

/-- Claim C9 (counterexample): the `data` handler of the named
`src/tcp/tcpServer.ts` logs a `gt06.parse` error and returns — the
undecodable chunk is forwarded to the dispatcher as nothing at all, not
as an opaque payload.  (The connection does keep processing subsequent
bytes.) -/
theorem tcp_parse_error_drop_counterexample :
    (onDataTcpServer (ParseOutcome.failed "unrecognized frame")).1 = [] ∧
    (onDataTcpServer (ParseOutcome.failed "unrecognized frame")).2 = true :=
  ⟨rfl, rfl⟩

/-- Claim C9 (amended): on a structural decoding failure neither variant
terminates the connection; the part_016 variant forwards the chunk to
the dispatcher as an opaque extended payload carrying the raw bytes,
their length and the receive time, while the named `tcpServer.ts`
variant drops the chunk after logging. -/
theorem tcp_parse_error_amended (chunk : RawChunk) (e : String) :
    onDataExtendedServer chunk (ParseOutcome.failed e) =
      ([Forwarded.extended chunk.bytes chunk.bytes.length chunk.receivedAt], true) ∧
    onDataTcpServer (ParseOutcome.failed e) = ([], true) :=
  ⟨rfl, rfl⟩

end KUFleet
